import Mathlib

/-!
# Verification of the Resolution Orchestrator (src/main.py)

Shallow embedding of the video-URL resolver service. Python dict fields are
modelled with nested `Option`s: the outer `Option` records whether the key is
present in the dict, the inner one whether its value is `None`. The extraction
engine (yt-dlp) is an external collaborator; its behaviour on a given request
URL is a parameter of the resolve operation.
-/

/-- One candidate rendition (`FormatEntry`) as reported by the extraction
engine. `url = none` models the `'url'` key being absent, `some none` models
`url: None`, `some (some s)` a string value. Site-specific fields are ignored
by the code and omitted here. -/
structure FormatEntry where
  url : Option (Option String)
deriving DecidableEq

/-- `fmt.get('url')` followed by the Python truthiness test of line 138
(`if fmt.get('url')`): yields the url exactly when the key is present with a
non-null, non-empty string. -/
def FormatEntry.getUrlTruthy (f : FormatEntry) : Option String :=
  match f.url with
  | some (some s) => if s = "" then none else some s
  | _ => none

/-- A Python number as found in `info['duration']`: an int or a float. Floats
are modelled as rationals; the durations the program handles (e.g. 12.5) are
exactly representable. -/
inductive PyNum where
  | int (n : Int)
  | float (q : Rat)
deriving DecidableEq

/-- Python `float(x)` applied to a number (line 152): ints are widened to
floating point, floats are unchanged. -/
def PyNum.toFloat : PyNum → Rat
  | .int n => (n : Rat)
  | .float q => q

/-- The extraction record (`info`) returned by `ydl.extract_info`, modelled as
a Python dict with the five keys the orchestrator reads. For each field the
outer `Option` is key presence, the inner one the `None` value. `otherKeys`
counts the dict's remaining site-specific keys, which the code never reads but
which participate in the dict truthiness test `if not info` (line 125). -/
structure InfoDict where
  title : Option (Option String)
  thumbnail : Option (Option String)
  duration : Option (Option PyNum)
  url : Option (Option String)
  formats : Option (List FormatEntry)
  otherKeys : Nat
deriving DecidableEq

/-- Number of keys of the modelled dict. -/
def InfoDict.keyCount (i : InfoDict) : Nat :=
  i.title.isSome.toNat + i.thumbnail.isSome.toNat + i.duration.isSome.toNat +
  i.url.isSome.toNat + i.formats.isSome.toNat + i.otherKeys

/-- Python truthiness of the dict `info`: a dict is truthy iff it is
non-empty. -/
def InfoDict.pyTruthy (i : InfoDict) : Bool :=
  decide (0 < i.keyCount)

/-- Lines 137-140: `for fmt in reversed(info['formats'])` with
`if fmt.get('url'): stream_url = fmt['url']; break` — the first entry of the
reversed sequence with a truthy url wins, i.e. later entries take precedence
over earlier ones. -/
def scanFormats : List FormatEntry → Option String
  | [] => none
  | f :: rest =>
    match scanFormats rest with
    | some s => some s
    | none => f.getUrlTruthy

/-- Lines 132-140: the value of the `stream_url` variable after the selection
block. Note the code tests `'url' in info` (key presence), so a present key
with a `None` or empty value is taken by the first branch; the `formats`
branch runs only when the `'url'` key is absent. -/
def computeStreamUrl (i : InfoDict) : Option String :=
  match i.url with
  | some v => v
  | none =>
    match i.formats with
    | some fs => if 0 < fs.length then scanFormats fs else none
    | none => none

/-- Line 142 guard `if not stream_url`: the selected url when Python-truthy
(non-`None` and non-empty), otherwise `none` and the 400 path is taken. -/
def truthyStream (i : InfoDict) : Option String :=
  match computeStreamUrl i with
  | some s => if s = "" then none else some s
  | none => none

/-- The `VideoData` pydantic model (lines 31-35). The pydantic default
`title = "Sin título"` never applies at the one construction site because
`title` is always passed explicitly there. -/
structure VideoData where
  title : Option String
  thumbnail : Option String
  duration : Option Rat
  stream_url : String
deriving DecidableEq

/-- Lines 149-154: construction of `VideoData` from the record and the selected
stream url. `info.get('title', 'Sin título')` yields the default only when the
key is absent; `info.get('thumbnail')` collapses absent and null;
`float(info['duration']) if info.get('duration') is not None else None`. -/
def mkVideoData (i : InfoDict) (stream : String) : VideoData :=
  { title :=
      match i.title with
      | none => some "Sin título"
      | some v => v
  , thumbnail := i.thumbnail.bind id
  , duration :=
      match i.duration.bind id with
      | some n => some n.toFloat
      | none => none
  , stream_url := stream }

/-- The `VideoResponse` pydantic model (lines 37-40). -/
structure VideoResponse where
  status : String
  data : Option VideoData
  message : Option String
deriving DecidableEq

/-- The Python exceptions that can cross the `try` block of
`resolve_video_url`: yt-dlp's `DownloadError`, FastAPI's `HTTPException`
(raised at lines 126 and 143), and any other `Exception`. -/
inductive PyExc where
  | downloadError (msg : String)
  | httpException (code : Nat) (detail : String)
  | otherExc (msg : String)
deriving DecidableEq

def PyExc.isDownloadError : PyExc → Bool
  | .downloadError _ => true
  | _ => false

def PyExc.isHTTPException : PyExc → Bool
  | .httpException _ _ => true
  | _ => false

/-- Every modelled exception is a Python `Exception`, so the catch-all clause
at line 173 matches all of them. -/
def PyExc.isException : PyExc → Bool := fun _ => true

/-- `str(e)` for the modelled exceptions. -/
def PyExc.excStr : PyExc → String
  | .downloadError m => m
  | .httpException _ d => d
  | .otherExc m => m

/-- The `VideoRequest` pydantic model (lines 28-29). -/
structure VideoRequest where
  url : String
deriving DecidableEq

/-- Outcome of `ydl.extract_info(request.url, download=False)` (line 123):
the engine either raises `yt_dlp.utils.DownloadError`, raises some other
exception, or returns a record (possibly `None`). -/
inductive EngineResult where
  | downloadErr (msg : String)
  | otherErr (msg : String)
  | returns (info : Option InfoDict)
deriving DecidableEq

/-- The body of the `try` block (lines 117-161): either a `VideoResponse`
value is returned or an exception escapes the block. -/
def tryBody (er : EngineResult) : Except PyExc VideoResponse :=
  match er with
  | .downloadErr m => .error (.downloadError m)
  | .otherErr m => .error (.otherExc m)
  | .returns none =>
      .error (.httpException 400 "No se pudo extraer información del video")
  | .returns (some i) =>
      if i.pyTruthy = false then
        .error (.httpException 400 "No se pudo extraer información del video")
      else
        match truthyStream i with
        | none =>
            .error (.httpException 400 "No se pudo obtener la URL directa del video")
        | some s =>
            .ok { status := "success", data := some (mkVideoData i s), message := none }

/-- What the transport layer observes from one call of `resolve_video_url`:
a 200 response carrying a `VideoResponse` envelope, an `HTTPException`
re-raised to FastAPI (which renders it with its status code), or an exception
escaping every `except` clause (an unhandled fault). -/
inductive Outcome where
  | response (r : VideoResponse)
  | httpError (code : Nat) (detail : String)
  | unhandled (e : PyExc)
deriving DecidableEq

/-- Lines 163-179: the `except` clause chain, tried in source order —
`yt_dlp.utils.DownloadError` (line 163), `HTTPException` (line 170, re-raised),
`Exception` (line 173, catch-all). An exception matching no clause would
propagate unhandled; the final fallback models that. -/
def handleExc (e : PyExc) : Outcome :=
  if e.isDownloadError then
    .response { status := "error", data := none
              , message := some ("No se pudo procesar la URL: " ++ e.excStr) }
  else if e.isHTTPException then
    match e with
    | .httpException c d => .httpError c d
    | _ => .unhandled e
  else if e.isException then
    .response { status := "error", data := none
              , message := some ("Error interno del servidor: " ++ e.excStr) }
  else
    .unhandled e

/-- The `/resolve` handler `resolve_video_url` (lines 103-179), parameterized
by the extraction engine's behaviour on each URL. -/
def resolve_video_url (engine : String → EngineResult) (request : VideoRequest) : Outcome :=
  match tryBody (engine request.url) with
  | .ok r => .response r
  | .error e => handleExc e

/-- A value of the yt-dlp options dict: a string, a list of strings, or a
boolean. -/
inductive OptVal where
  | str (s : String)
  | strs (l : List String)
  | bool (b : Bool)
deriving DecidableEq

/-- The yt-dlp configuration dict built by `get_ydl_opts` (lines 43-83). -/
structure YdlOpts where
  format : String
  quiet : Bool
  no_warnings : Bool
  simulate : Bool
  force_url : Bool
  noplaylist : Bool
  socket_timeout : Nat
  retries : Nat
  age_limit : Option Nat
  geo_bypass : Bool
  nocheckcertificate : Bool
  extractor_args : List (String × List (String × OptVal))
  http_headers : List (String × String)
deriving DecidableEq

/-- `get_ydl_opts` (lines 43-83): parameterless construction of the
configuration dict, returning the same literal on every call. -/
def get_ydl_opts (_ : Unit) : YdlOpts :=
  { format := "best"
  , quiet := true
  , no_warnings := true
  , simulate := true
  , force_url := true
  , noplaylist := true
  , socket_timeout := 30
  , retries := 3
  , age_limit := none
  , geo_bypass := true
  , nocheckcertificate := true
  , extractor_args :=
      [ ("youtube",
          [ ("player_client", .strs ["android_creator", "android", "ios"])
          , ("player_skip", .strs ["webpage", "configs", "js"])
          , ("skip", .strs ["hls", "dash", "translated_subs"]) ])
      , ("instagram", [ ("skip_hls", .bool true) ])
      , ("tiktok",
          [ ("api_hostname", .str "api22-normal-c-useast2a.tiktokv.com")
          , ("app_version", .str "34.1.2")
          , ("manifest_app_version", .str "2023401020") ])
      , ("twitter", [ ("api", .str "syndication") ])
      , ("reddit", [ ("skip_hls", .bool true) ]) ]
  , http_headers :=
      [ ("User-Agent", "com.google.android.youtube/19.09.37 (Linux; U; Android 11) gzip")
      , ("Accept-Language", "en-US,en;q=0.9")
      , ("Accept", "*/*") ] }

/-- Step of the spec-side scan: keep the url of the current entry when it is
resolvable, otherwise keep the accumulator. -/
def pickStep (acc : Option String) (f : FormatEntry) : Option String :=
  match f.getUrlTruthy with
  | some s => some s
  | none => acc

/-- Spec-side selection, written from the spec's words: the `stream_url` of a
formats-only record is "the url of the last entry (highest index) whose url
field is non-empty". Scanning left to right and remembering the most recent
resolvable url yields exactly the last one. -/
def lastResolvableUrl (fs : List FormatEntry) : Option String :=
  fs.foldl pickStep none

/-- Record carrying a `url` key whose value is the empty string, together with
a resolvable format entry. -/
def infoEmptyUrl : InfoDict :=
  { title := none, thumbnail := none, duration := none
  , url := some (some ""), formats := some [⟨some (some "https://cdn/x.mp4")⟩]
  , otherKeys := 0 }

/-- Record with no `url` key and a formats sequence whose last resolvable
entry is the high-quality one. -/
def infoFormatsOnly : InfoDict :=
  { title := none, thumbnail := none, duration := none
  , url := none
  , formats := some [⟨some none⟩, ⟨some (some "https://cdn/low.mp4")⟩,
                     ⟨some (some "https://cdn/high.mp4")⟩]
  , otherKeys := 0 }

/-- Record with a non-empty top-level `url` and a competing formats entry. -/
def infoDirectUrl : InfoDict :=
  { title := some (some "A"), thumbnail := none, duration := none
  , url := some (some "https://cdn/x.mp4")
  , formats := some [⟨some (some "https://cdn/other.mp4")⟩]
  , otherKeys := 0 }

/-- Record with a non-empty `url` and no `title` key. -/
def infoUntitled : InfoDict :=
  { title := none, thumbnail := none, duration := none
  , url := some (some "https://cdn/x.mp4"), formats := none
  , otherKeys := 0 }

/-- Record with a non-empty `url` and a fractional duration of 12.5 seconds. -/
def infoHalfDur : InfoDict :=
  { title := some (some "A"), thumbnail := none
  , duration := some (some (.float (25 / 2)))
  , url := some (some "https://cdn/x.mp4"), formats := none
  , otherKeys := 0 }

/-- The empty extraction record: a falsy (empty) Python dict. -/
def emptyDict : InfoDict :=
  { title := none, thumbnail := none, duration := none
  , url := none, formats := none, otherKeys := 0 }

/-- The success envelope produced for `infoDirectUrl`. -/
def successEnvelope : VideoResponse :=
  { status := "success"
  , data := some (mkVideoData infoDirectUrl "https://cdn/x.mp4")
  , message := none }

/-! ## Helper lemmas -/

theorem pyTruthy_of_url (i : InfoDict) (h : i.url.isSome = true) :
    i.pyTruthy = true := by
  simp only [InfoDict.pyTruthy, InfoDict.keyCount, h, Bool.toNat_true, decide_eq_true_iff]
  omega

theorem pyTruthy_of_formats (i : InfoDict) (h : i.formats.isSome = true) :
    i.pyTruthy = true := by
  simp only [InfoDict.pyTruthy, InfoDict.keyCount, h, Bool.toNat_true, decide_eq_true_iff]
  omega

theorem pyTruthy_of_computeStream (i : InfoDict) (s : String)
    (h : computeStreamUrl i = some s) : i.pyTruthy = true := by
  unfold computeStreamUrl at h
  cases hu : i.url with
  | some v => exact pyTruthy_of_url i (by rw [hu]; rfl)
  | none =>
    rw [hu] at h
    cases hf : i.formats with
    | some fs => exact pyTruthy_of_formats i (by rw [hf]; rfl)
    | none => rw [hf] at h; cases h

theorem pyTruthy_of_truthyStream (i : InfoDict) (s : String)
    (h : truthyStream i = some s) : i.pyTruthy = true := by
  unfold truthyStream at h
  cases hc : computeStreamUrl i with
  | some t => exact pyTruthy_of_computeStream i t hc
  | none => rw [hc] at h; cases h

theorem getUrlTruthy_ne_empty (f : FormatEntry) (s : String)
    (h : f.getUrlTruthy = some s) : s ≠ "" := by
  unfold FormatEntry.getUrlTruthy at h
  cases hu : f.url with
  | none => rw [hu] at h; cases h
  | some v =>
    cases v with
    | none => rw [hu] at h; cases h
    | some t =>
      rw [hu] at h
      by_cases ht : t = ""
      · simp [ht] at h
      · simp [ht] at h; rw [← h]; exact ht

theorem truthyStream_ne_empty (i : InfoDict) (s : String)
    (h : truthyStream i = some s) : s ≠ "" := by
  unfold truthyStream at h
  cases hc : computeStreamUrl i with
  | none => rw [hc] at h; cases h
  | some t =>
    rw [hc] at h
    by_cases ht : t = ""
    · simp [ht] at h
    · simp [ht] at h; rw [← h]; exact ht

theorem scanFormats_ne_empty (fs : List FormatEntry) (s : String)
    (h : scanFormats fs = some s) : s ≠ "" := by
  induction fs with
  | nil => cases h
  | cons f t ih =>
    unfold scanFormats at h
    cases hr : scanFormats t with
    | some u => rw [hr] at h; cases h; exact ih hr
    | none => rw [hr] at h; exact getUrlTruthy_ne_empty f s h

theorem foldl_pickStep (fs : List FormatEntry) : ∀ acc : Option String,
    fs.foldl pickStep acc = (fs.foldl pickStep none).orElse (fun _ => acc) := by
  induction fs with
  | nil => intro acc; rfl
  | cons f t ih =>
    intro acc
    show t.foldl pickStep (pickStep acc f) =
      (t.foldl pickStep (pickStep none f)).orElse (fun _ => acc)
    rw [ih (pickStep acc f), ih (pickStep none f)]
    cases t.foldl pickStep none with
    | some u => rfl
    | none =>
      show pickStep acc f = (pickStep none f).orElse (fun _ => acc)
      unfold pickStep
      cases f.getUrlTruthy with
      | some u => rfl
      | none => rfl

theorem scanFormats_eq_last (fs : List FormatEntry) :
    scanFormats fs = lastResolvableUrl fs := by
  induction fs with
  | nil => rfl
  | cons f t ih =>
    unfold scanFormats lastResolvableUrl
    show (match scanFormats t with
          | some s => some s
          | none => f.getUrlTruthy) = t.foldl pickStep (pickStep none f)
    rw [foldl_pickStep t (pickStep none f), ih]
    unfold lastResolvableUrl
    cases t.foldl pickStep none with
    | some u => rfl
    | none =>
      show f.getUrlTruthy = pickStep none f
      unfold pickStep
      cases f.getUrlTruthy with
      | some u => rfl
      | none => rfl

theorem truthyStream_of_url (i : InfoDict) (s : String)
    (hu : i.url = some (some s)) (hne : s ≠ "") :
    truthyStream i = some s := by
  unfold truthyStream computeStreamUrl
  rw [hu]
  simp [hne]

theorem truthyStream_formats (i : InfoDict) (fs : List FormatEntry)
    (hu : i.url = none) (hf : i.formats = some fs) :
    truthyStream i = lastResolvableUrl fs := by
  rw [← scanFormats_eq_last]
  have hc : computeStreamUrl i = if 0 < fs.length then scanFormats fs else none := by
    simp only [computeStreamUrl, hu, hf]
  unfold truthyStream
  rw [hc]
  cases fs with
  | nil => rfl
  | cons f t =>
    rw [if_pos (by simp : 0 < (f :: t).length)]
    cases hs : scanFormats (f :: t) with
    | none => rfl
    | some s =>
      have hne := scanFormats_ne_empty (f :: t) s hs
      simp [hne]

theorem tryBody_success (i : InfoDict) (s : String)
    (ht : i.pyTruthy = true) (hs : truthyStream i = some s) :
    tryBody (.returns (some i)) =
      .ok { status := "success", data := some (mkVideoData i s), message := none } := by
  simp [tryBody, ht, hs]

theorem resolve_of_engine (engine : String → EngineResult) (request : VideoRequest)
    (er : EngineResult) (he : engine request.url = er) :
    resolve_video_url engine request =
      (match tryBody er with
       | .ok r => .response r
       | .error e => handleExc e) := by
  unfold resolve_video_url
  rw [he]

/-! ## Evaluation lemmas for each path of the orchestrator -/

theorem resolve_downloadErr_eq (engine : String → EngineResult) (request : VideoRequest)
    (m : String) (he : engine request.url = .downloadErr m) :
    resolve_video_url engine request =
      .response { status := "error", data := none
                , message := some ("No se pudo procesar la URL: " ++ m) } :=
  (resolve_of_engine engine request _ he).trans rfl

theorem resolve_otherErr_eq (engine : String → EngineResult) (request : VideoRequest)
    (m : String) (he : engine request.url = .otherErr m) :
    resolve_video_url engine request =
      .response { status := "error", data := none
                , message := some ("Error interno del servidor: " ++ m) } :=
  (resolve_of_engine engine request _ he).trans rfl

theorem resolve_none_eq (engine : String → EngineResult) (request : VideoRequest)
    (he : engine request.url = .returns none) :
    resolve_video_url engine request =
      .httpError 400 "No se pudo extraer información del video" :=
  (resolve_of_engine engine request _ he).trans rfl

theorem resolve_falsy_eq (engine : String → EngineResult) (request : VideoRequest)
    (i : InfoDict) (he : engine request.url = .returns (some i))
    (ht : i.pyTruthy = false) :
    resolve_video_url engine request =
      .httpError 400 "No se pudo extraer información del video" := by
  rw [resolve_of_engine engine request _ he]
  simp [tryBody, ht, handleExc, PyExc.isDownloadError, PyExc.isHTTPException]

theorem resolve_noStream_eq (engine : String → EngineResult) (request : VideoRequest)
    (i : InfoDict) (he : engine request.url = .returns (some i))
    (ht : i.pyTruthy = true) (hs : truthyStream i = none) :
    resolve_video_url engine request =
      .httpError 400 "No se pudo obtener la URL directa del video" := by
  rw [resolve_of_engine engine request _ he]
  simp [tryBody, ht, hs, handleExc, PyExc.isDownloadError, PyExc.isHTTPException]

theorem resolve_success_eq (engine : String → EngineResult) (request : VideoRequest)
    (i : InfoDict) (s : String) (he : engine request.url = .returns (some i))
    (ht : i.pyTruthy = true) (hs : truthyStream i = some s) :
    resolve_video_url engine request =
      .response { status := "success", data := some (mkVideoData i s), message := none } := by
  rw [resolve_of_engine engine request _ he, tryBody_success i s ht hs]

/-! ## Claim theorems -/

/-- **C1** (counterexample): the record `infoEmptyUrl` carries the top-level
`url` key with the empty value "" — hence no *non-empty* top-level url value —
together with a formats sequence whose last entry has the non-empty url
"https://cdn/x.mp4". The claim predicts a success response with that
stream_url; the code instead takes the key-presence branch (`'url' in info`),
finds the selected value falsy, and fails with HTTP 400 without scanning the
formats. -/
theorem C1_counterexample :
    infoEmptyUrl.url = some (some "") ∧
    infoEmptyUrl.formats = some [⟨some (some "https://cdn/x.mp4")⟩] ∧
    resolve_video_url (fun _ => .returns (some infoEmptyUrl)) ⟨"https://page/v"⟩ =
      .httpError 400 "No se pudo obtener la URL directa del video" ∧
    resolve_video_url (fun _ => .returns (some infoEmptyUrl)) ⟨"https://page/v"⟩ ≠
      .response { status := "success"
                , data := some (mkVideoData infoEmptyUrl "https://cdn/x.mp4")
                , message := none } := by
  refine ⟨rfl, rfl, by decide, by decide⟩

/-- **C1** (amended): for every record whose top-level `url` key is absent and
which carries a `formats` sequence, the response's `stream_url` equals the url
of the last entry (highest index) with a non-empty url; when no such entry
exists the request fails with HTTP 400 (NoResolvableStream) and no result is
constructed. (The original premise "no non-empty top-level url value" is
narrowed to "no top-level url key at all": a present-but-empty url value takes
the 400 path without consulting formats, per the counterexample.) -/
theorem C1_reverse_scan (engine : String → EngineResult) (request : VideoRequest)
    (i : InfoDict) (fs : List FormatEntry)
    (he : engine request.url = .returns (some i))
    (hu : i.url = none) (hf : i.formats = some fs) :
    (∀ s, lastResolvableUrl fs = some s →
      resolve_video_url engine request =
        .response { status := "success", data := some (mkVideoData i s), message := none }) ∧
    (lastResolvableUrl fs = none →
      resolve_video_url engine request =
        .httpError 400 "No se pudo obtener la URL directa del video") := by
  have ht : i.pyTruthy = true := pyTruthy_of_formats i (by rw [hf]; rfl)
  have hts : truthyStream i = lastResolvableUrl fs := truthyStream_formats i fs hu hf
  constructor
  · intro s hlast
    exact resolve_success_eq engine request i s he ht (hts.trans hlast)
  · intro hnone
    exact resolve_noStream_eq engine request i he ht (hts.trans hnone)

/-- Witness for the amended C1: the highest-index entry with a non-empty url
wins, skipping the url-less entry. -/
theorem C1_reverse_scan_witness :
    resolve_video_url (fun _ => .returns (some infoFormatsOnly)) ⟨"https://page/v"⟩ =
      .response { status := "success"
                , data := some (mkVideoData infoFormatsOnly "https://cdn/high.mp4")
                , message := none } :=
  (C1_reverse_scan (fun _ => .returns (some infoFormatsOnly)) ⟨"https://page/v"⟩
      infoFormatsOnly
      [⟨some none⟩, ⟨some (some "https://cdn/low.mp4")⟩, ⟨some (some "https://cdn/high.mp4")⟩]
      rfl rfl rfl).1 "https://cdn/high.mp4" (by decide)

/-- **C2**: a record whose top-level `url` field has a non-empty value yields
a success response whose `stream_url` is that value, with unconditional
precedence: the statement places no constraint on the record's `formats`. -/
theorem C2_direct_url_precedence (engine : String → EngineResult)
    (request : VideoRequest) (i : InfoDict) (s : String)
    (he : engine request.url = .returns (some i))
    (hu : i.url = some (some s)) (hne : s ≠ "") :
    resolve_video_url engine request =
      .response { status := "success", data := some (mkVideoData i s), message := none } :=
  resolve_success_eq engine request i s he
    (pyTruthy_of_url i (by rw [hu]; rfl)) (truthyStream_of_url i s hu hne)

/-- Witness for C2 at a concrete record carrying both a direct url and a
competing formats entry: the direct url wins. -/
theorem C2_direct_url_precedence_witness :
    resolve_video_url (fun _ => .returns (some infoDirectUrl)) ⟨"https://page/v"⟩ =
      .response { status := "success"
                , data := some (mkVideoData infoDirectUrl "https://cdn/x.mp4")
                , message := none } :=
  C2_direct_url_precedence (fun _ => .returns (some infoDirectUrl)) ⟨"https://page/v"⟩
    infoDirectUrl "https://cdn/x.mp4" rfl rfl (by decide)

/-- **C3**: for every engine behaviour the resolve operation yields either a
`VideoResponse` envelope (transport 200) or the explicit HTTP 400 case, and
never lets an exception escape the handler chain as an unhandled fault. -/
theorem C3_no_unhandled (engine : String → EngineResult) (request : VideoRequest) :
    ((∃ r, resolve_video_url engine request = .response r) ∨
     (∃ d, resolve_video_url engine request = .httpError 400 d)) ∧
    (∀ e, resolve_video_url engine request ≠ .unhandled e) := by
  have hclass : (∃ r, resolve_video_url engine request = .response r) ∨
      (∃ d, resolve_video_url engine request = .httpError 400 d) := by
    cases he : engine request.url with
    | downloadErr m =>
      exact Or.inl ⟨_, resolve_downloadErr_eq engine request m he⟩
    | otherErr m =>
      exact Or.inl ⟨_, resolve_otherErr_eq engine request m he⟩
    | returns info =>
      cases info with
      | none => exact Or.inr ⟨_, resolve_none_eq engine request he⟩
      | some i =>
        cases hft : i.pyTruthy with
        | false => exact Or.inr ⟨_, resolve_falsy_eq engine request i he hft⟩
        | true =>
          cases hs : truthyStream i with
          | none => exact Or.inr ⟨_, resolve_noStream_eq engine request i he hft hs⟩
          | some s => exact Or.inl ⟨_, resolve_success_eq engine request i s he hft hs⟩
  refine ⟨hclass, ?_⟩
  intro e hcontra
  rcases hclass with ⟨r, hr⟩ | ⟨d, hd⟩
  · rw [hr] at hcontra; cases hcontra
  · rw [hd] at hcontra; cases hcontra

/-- **C4**: on the success path, the response title is the localized default
"Sin título" exactly when the record carries no `title` key — a supplied
string title is passed through unchanged — and the title is never the empty
string when unset. -/
theorem C4_title_default (engine : String → EngineResult) (request : VideoRequest)
    (i : InfoDict) (s : String)
    (he : engine request.url = .returns (some i)) (hs : truthyStream i = some s) :
    resolve_video_url engine request =
      .response { status := "success", data := some (mkVideoData i s), message := none } ∧
    (i.title = none → (mkVideoData i s).title = some "Sin título") ∧
    (i.title = none → (mkVideoData i s).title ≠ some "") ∧
    (∀ t, i.title = some (some t) → (mkVideoData i s).title = some t) := by
  have ht := pyTruthy_of_truthyStream i s hs
  refine ⟨resolve_success_eq engine request i s he ht hs, ?_, ?_, ?_⟩
  · intro h0; simp [mkVideoData, h0]
  · intro h0; simp [mkVideoData, h0]
  · intro t h0; simp [mkVideoData, h0]

/-- Witness for C4: a record with no title key resolves successfully and the
payload title is "Sin título". -/
theorem C4_title_default_witness :
    (mkVideoData infoUntitled "https://cdn/x.mp4").title = some "Sin título" ∧
    resolve_video_url (fun _ => .returns (some infoUntitled)) ⟨"https://page/v"⟩ =
      .response { status := "success"
                , data := some (mkVideoData infoUntitled "https://cdn/x.mp4")
                , message := none } := by
  have h := C4_title_default (fun _ => .returns (some infoUntitled)) ⟨"https://page/v"⟩
    infoUntitled "https://cdn/x.mp4" rfl (by decide)
  exact ⟨h.2.1 rfl, h.1⟩

/-- **C5** (counterexample): for an unexpected failure whose detail is "boom",
the returned envelope's message is the concatenation of the generic prefix
with the underlying failure detail "boom" — the detail is included in the
returned message, contradicting the claim that the returned message does not
include it. -/
theorem C5_counterexample :
    resolve_video_url (fun _ => .otherErr "boom") ⟨"https://page/v"⟩ =
      .response { status := "error", data := none
                , message := some "Error interno del servidor: boom" } ∧
    "Error interno del servidor: boom" = "Error interno del servidor: " ++ "boom" := by
  refine ⟨by decide, by decide⟩

/-- **C5** (amended): for every unexpected failure the resolve operation
returns `{status:"error"}` whose message is the fixed generic prefix
"Error interno del servidor: " followed by the underlying failure detail —
the detail is logged and also included in the returned message, not
sanitized away. -/
theorem C5_generic_error (engine : String → EngineResult) (request : VideoRequest)
    (m : String) (he : engine request.url = .otherErr m) :
    resolve_video_url engine request =
      .response { status := "error", data := none
                , message := some ("Error interno del servidor: " ++ m) } :=
  resolve_otherErr_eq engine request m he

/-- Witness for the amended C5. -/
theorem C5_generic_error_witness :
    resolve_video_url (fun _ => .otherErr "oops") ⟨"https://page/v"⟩ =
      .response { status := "error", data := none
                , message := some ("Error interno del servidor: " ++ "oops") } :=
  C5_generic_error (fun _ => .otherErr "oops") ⟨"https://page/v"⟩ "oops" rfl

/-- **C6**: on the success path, a present duration `n` is coerced with
`float(...)` and the response carries its floating-point value; an absent (or
null) duration yields an absent response duration; in particular an input
duration of 12.5 round-trips as 12.5 and not as the truncated 12. -/
theorem C6_duration_float (engine : String → EngineResult) (request : VideoRequest)
    (i : InfoDict) (s : String)
    (he : engine request.url = .returns (some i)) (hs : truthyStream i = some s) :
    resolve_video_url engine request =
      .response { status := "success", data := some (mkVideoData i s), message := none } ∧
    (∀ n : PyNum, i.duration.bind id = some n →
      (mkVideoData i s).duration = some n.toFloat) ∧
    (i.duration.bind id = none → (mkVideoData i s).duration = none) ∧
    (i.duration = some (some (.float (25 / 2))) →
      (mkVideoData i s).duration = some ((25 : Rat) / 2) ∧
      (mkVideoData i s).duration ≠ some (12 : Rat)) := by
  have ht := pyTruthy_of_truthyStream i s hs
  refine ⟨resolve_success_eq engine request i s he ht hs, ?_, ?_, ?_⟩
  · intro n h0
    show (match i.duration.bind id with
          | some n => some n.toFloat
          | none => none) = some n.toFloat
    rw [h0]
  · intro h0
    show (match i.duration.bind id with
          | some n => some n.toFloat
          | none => none) = none
    rw [h0]
  · intro h0
    have hb : i.duration.bind id = some (PyNum.float (25 / 2)) := by rw [h0]; rfl
    constructor
    · show (match i.duration.bind id with
            | some n => some n.toFloat
            | none => none) = some ((25 : Rat) / 2)
      rw [hb]
      rfl
    · show (match i.duration.bind id with
            | some n => some n.toFloat
            | none => none) ≠ some (12 : Rat)
      rw [hb]
      intro hq
      have hq2 : ((25 : Rat) / 2) = 12 := Option.some.inj hq
      norm_num at hq2

/-- Witness for C6: a record with duration 12.5 resolves successfully and the
payload duration is 12.5, not 12. -/
theorem C6_duration_float_witness :
    (mkVideoData infoHalfDur "https://cdn/x.mp4").duration = some ((25 : Rat) / 2) ∧
    (mkVideoData infoHalfDur "https://cdn/x.mp4").duration ≠ some (12 : Rat) ∧
    resolve_video_url (fun _ => .returns (some infoHalfDur)) ⟨"https://page/v"⟩ =
      .response { status := "success"
                , data := some (mkVideoData infoHalfDur "https://cdn/x.mp4")
                , message := none } := by
  have h := C6_duration_float (fun _ => .returns (some infoHalfDur)) ⟨"https://page/v"⟩
    infoHalfDur "https://cdn/x.mp4" rfl (by decide)
  have h2 := h.2.2.2 rfl
  exact ⟨h2.1, h2.2, h.1⟩

/-- **C7**: when the engine raises an extraction-specific failure
(`DownloadError`) with detail `m`, the resolve operation returns the 200
envelope `{status:"error"}` whose message is "No se pudo procesar la URL: "
followed by the engine-provided detail; the envelope is an ordinary response
(not a raised HTTP error) and no unhandled fault occurs. -/
theorem C7_download_error (engine : String → EngineResult) (request : VideoRequest)
    (m : String) (he : engine request.url = .downloadErr m) :
    resolve_video_url engine request =
      .response { status := "error", data := none
                , message := some ("No se pudo procesar la URL: " ++ m) } ∧
    (∀ c d, resolve_video_url engine request ≠ .httpError c d) ∧
    (∀ e, resolve_video_url engine request ≠ .unhandled e) := by
  have h := resolve_downloadErr_eq engine request m he
  refine ⟨h, ?_, ?_⟩
  · intro c d hcontra; rw [h] at hcontra; cases hcontra
  · intro e hcontra; rw [h] at hcontra; cases hcontra

/-- Witness for C7 at a concrete engine failure message. -/
theorem C7_download_error_witness :
    resolve_video_url (fun _ => .downloadErr "Unsupported URL") ⟨"https://page/v"⟩ =
      .response { status := "error", data := none
                , message := some ("No se pudo procesar la URL: " ++ "Unsupported URL") } :=
  (C7_download_error (fun _ => .downloadErr "Unsupported URL") ⟨"https://page/v"⟩
    "Unsupported URL" rfl).1

/-- **C8**: every `VideoResponse` envelope produced by resolve is a tagged
result — its status is "success" or "error", status "success" holds exactly
when `data` is populated and `message` absent, status "error" exactly when
`message` is populated and `data` absent — and any carried payload has a
non-empty `stream_url`. -/
theorem C8_tagged_result (engine : String → EngineResult) (request : VideoRequest)
    (r : VideoResponse) (h : resolve_video_url engine request = .response r) :
    (r.status = "success" ∨ r.status = "error") ∧
    (r.status = "success" ↔ (r.data.isSome = true ∧ r.message = none)) ∧
    (r.status = "error" ↔ (r.message.isSome = true ∧ r.data = none)) ∧
    (∀ d, r.data = some d → d.stream_url ≠ "") := by
  cases he : engine request.url with
  | downloadErr m =>
    have hr : r = { status := "error", data := none
                  , message := some ("No se pudo procesar la URL: " ++ m) } :=
      Outcome.response.inj (h.symm.trans (resolve_downloadErr_eq engine request m he))
    subst hr
    refine ⟨Or.inr rfl, ?_, ?_, ?_⟩ <;> simp
  | otherErr m =>
    have hr : r = { status := "error", data := none
                  , message := some ("Error interno del servidor: " ++ m) } :=
      Outcome.response.inj (h.symm.trans (resolve_otherErr_eq engine request m he))
    subst hr
    refine ⟨Or.inr rfl, ?_, ?_, ?_⟩ <;> simp
  | returns info =>
    cases info with
    | none =>
      have := h.symm.trans (resolve_none_eq engine request he)
      cases this
    | some i =>
      cases hft : i.pyTruthy with
      | false =>
        have := h.symm.trans (resolve_falsy_eq engine request i he hft)
        cases this
      | true =>
        cases hs : truthyStream i with
        | none =>
          have := h.symm.trans (resolve_noStream_eq engine request i he hft hs)
          cases this
        | some s =>
          have hr : r = { status := "success", data := some (mkVideoData i s)
                        , message := none } :=
            Outcome.response.inj
              (h.symm.trans (resolve_success_eq engine request i s he hft hs))
          subst hr
          refine ⟨Or.inl rfl, by simp, by simp, ?_⟩
          intro d hd
          rw [Option.some.injEq] at hd
          rw [← hd]
          exact truthyStream_ne_empty i s hs

/-- Witness for C8 at the success envelope produced for a concrete record. -/
theorem C8_tagged_result_witness :
    (successEnvelope.status = "success" ∨ successEnvelope.status = "error") ∧
    (successEnvelope.status = "success" ↔
      (successEnvelope.data.isSome = true ∧ successEnvelope.message = none)) ∧
    (successEnvelope.status = "error" ↔
      (successEnvelope.message.isSome = true ∧ successEnvelope.data = none)) ∧
    (∀ d, successEnvelope.data = some d → d.stream_url ≠ "") :=
  C8_tagged_result (fun _ => .returns (some infoDirectUrl)) ⟨"https://page/v"⟩
    successEnvelope (by decide)

/-- **C9**: `get_ydl_opts` is a parameterless pure construction: every
invocation returns the identical configuration value, which requests
simulate-only extraction, disables playlist expansion, grants a retry budget
of 3, enables geo-bypass, disables certificate verification, and uses a
per-socket timeout within the 10-30 bound. -/
theorem C9_config_profile :
    (∀ u v : Unit, get_ydl_opts u = get_ydl_opts v) ∧
    (get_ydl_opts ()).simulate = true ∧
    (get_ydl_opts ()).noplaylist = true ∧
    (get_ydl_opts ()).retries = 3 ∧
    (get_ydl_opts ()).geo_bypass = true ∧
    (get_ydl_opts ()).nocheckcertificate = true ∧
    10 ≤ (get_ydl_opts ()).socket_timeout ∧ (get_ydl_opts ()).socket_timeout ≤ 30 :=
  ⟨fun _ _ => rfl, rfl, rfl, rfl, rfl, rfl, by decide, by decide⟩

/-- **C10**: when the engine returns `None` or an empty (falsy) record without
raising, resolve takes the HTTP 400 path with detail
"No se pudo extraer información del video" — not a `{status:"error"}` envelope
with transport 200 — and never reaches stream selection (the detail is the
extraction one, not the stream-selection one). -/
theorem C10_falsy_record (engine : String → EngineResult) (request : VideoRequest) :
    (engine request.url = .returns none →
      resolve_video_url engine request =
        .httpError 400 "No se pudo extraer información del video") ∧
    (∀ i : InfoDict, engine request.url = .returns (some i) → i.pyTruthy = false →
      resolve_video_url engine request =
        .httpError 400 "No se pudo extraer información del video") ∧
    (engine request.url = .returns none →
      ∀ r, resolve_video_url engine request ≠ .response r) := by
  refine ⟨fun he => resolve_none_eq engine request he,
          fun i he hft => resolve_falsy_eq engine request i he hft, ?_⟩
  intro he r hcontra
  rw [resolve_none_eq engine request he] at hcontra
  cases hcontra

/-- Witness for C10: the engine returning `None` and the engine returning an
empty dict both resolve to the 400 extraction error. -/
theorem C10_falsy_record_witness :
    resolve_video_url (fun _ => .returns none) ⟨"https://page/v"⟩ =
      .httpError 400 "No se pudo extraer información del video" ∧
    resolve_video_url (fun _ => .returns (some emptyDict)) ⟨"https://page/v"⟩ =
      .httpError 400 "No se pudo extraer información del video" :=
  ⟨(C10_falsy_record (fun _ => .returns none) ⟨"https://page/v"⟩).1 rfl,
   (C10_falsy_record (fun _ => .returns (some emptyDict)) ⟨"https://page/v"⟩).2.1
     emptyDict rfl (by decide)⟩
